import Mathlib

/-!
Shallow embedding of the `cerm` crate (src/lib.rs): four macros,
`warn!`, `err_code!`, `err!` and `require!`, layered on the program-name
resolution expression `env::args().next().unwrap_or("Error".into())`.

Modelling choices, each traceable to the source:
* A process argument is an `OsString`: either text that decodes as
  Unicode, or an undecodable byte sequence.  `std::env::args()` yields
  decoded `String`s and panics during iteration on an undecodable
  argument (the crate's own doc comments list `std::env::args` under
  `# Panics`); `.next()` returns `none` exactly when the argument list
  is empty, and `unwrap_or` substitutes `"Error"` only in that case.
* Format templates and substitution arguments are modelled by the
  already-formatted message text they produce, since the crate forwards
  them verbatim to `eprintln!` and only the resulting text is
  observable.
* Each macro invocation is a pure function from the process argument
  list and the call's inputs to an observable outcome: the text
  appended to the error stream together with whether control returns,
  the process exits with a given code, or the call panics.
-/

namespace Cerm

/-- A process argument as handed over by the operating system: either
text that decodes as Unicode, or a byte sequence that does not. -/
inductive OsString where
  | valid (s : String)
  | invalid

/-- The program-name resolution expression shared by `err_code!` and
`warn!` (src/lib.rs lines 46 and 121):
`env::args().next().unwrap_or("Error".into())`.
`Except.ok n` means the expression evaluates to the name `n`;
`Except.error ()` means it panics (undecodable first argument). -/
def progname (args : List OsString) : Except Unit String :=
  match args with
  | [] => .ok "Error"
  | .valid s :: _ => .ok s
  | .invalid :: _ => .error ()

/-- Observable outcome of invoking an emitter macro: `ret out` means
control returned to the caller having written `out` to the error
stream; `exited code out` means the process terminated with status
`code` after writing `out`; `panicked out` means the invocation
panicked after writing `out`. -/
inductive EmitResult where
  | ret (out : String)
  | exited (code : Int) (out : String)
  | panicked (out : String)

/-- `warn!` (src/lib.rs lines 118-124): writes `"{}: "` with the
resolved program name, then the formatted message and a newline, and
returns.  The name resolution runs before anything is written, so a
panic there writes nothing. -/
def warn (args : List OsString) (msg : String) : EmitResult :=
  match progname args with
  | .ok n => .ret (n ++ ": " ++ msg ++ "\n")
  | .error _ => .panicked ""

/-- `err_code!` (src/lib.rs lines 44-50): the same write sequence as
`warn!`, followed by `process::exit(code)`. -/
def err_code (code : Int) (args : List OsString) (msg : String) : EmitResult :=
  match progname args with
  | .ok n => .exited code (n ++ ": " ++ msg ++ "\n")
  | .error _ => .panicked ""

/-- `err!` (src/lib.rs lines 76-81): expands to `err_code!(1, ...)`. -/
def err (args : List OsString) (msg : String) : EmitResult :=
  err_code 1 args msg

/-- Observable outcome of a `require!` invocation: like `EmitResult`,
but the returning case carries the unwrapped success payload. -/
inductive RequireResult (α : Type) where
  | ret (v : α) (out : String)
  | exited (code : Int) (out : String)
  | panicked (out : String)

/-- `require!` on a `Result` (src/lib.rs lines 175-180): `Ok(v)`
returns `v`; `Err(e)` expands `err!("{e}")` inline, so it writes the
prefixed default text representation `display e` of the error and exits
with status 1 (or panics before writing if name resolution panics). -/
def require_result {ε α : Type} (display : ε → String) (args : List OsString)
    (r : Except ε α) : RequireResult α :=
  match r with
  | .ok v => .ret v ""
  | .error e =>
    match progname args with
    | .ok n => .exited 1 (n ++ ": " ++ display e ++ "\n")
    | .error _ => .panicked ""

/-- `require!` on an `Option` (src/lib.rs lines 181-186): `Some(v)`
returns `v`; `None` expands `err!` inline with the caller-supplied
template, writing the prefixed formatted message and exiting with
status 1 (or panicking before writing if name resolution panics). -/
def require_option {α : Type} (args : List OsString) (o : Option α)
    (msg : String) : RequireResult α :=
  match o with
  | some v => .ret v ""
  | none =>
    match progname args with
    | .ok n => .exited 1 (n ++ ": " ++ msg ++ "\n")
    | .error _ => .panicked ""

/-- Claim C1: `warn` writes exactly `name ++ ": " ++ msg ++ "\n"` to the
error stream — with `name` the first (decoded) argument-list entry, or
`"Error"` when the list is empty — and control returns to the caller
(constructor `ret`), carrying no value. -/
theorem warn_emits_line (msg s : String) (rest : List OsString) :
    warn [] msg = .ret ("Error" ++ ": " ++ msg ++ "\n") ∧
    warn (OsString.valid s :: rest) msg = .ret (s ++ ": " ++ msg ++ "\n") :=
  ⟨rfl, rfl⟩

/-- Claim C2: `err_code` with code `code` writes the same single line
shape as `warn` and terminates the process with status exactly `code`
(constructor `exited`); for no argument list does control ever return
to the caller (`ret` is never the outcome). -/
theorem err_code_exits (code : Int) (msg s : String) (rest args : List OsString) :
    err_code code [] msg = .exited code ("Error" ++ ": " ++ msg ++ "\n") ∧
    err_code code (OsString.valid s :: rest) msg
      = .exited code (s ++ ": " ++ msg ++ "\n") ∧
    (∀ out, err_code code args msg ≠ .ret out) := by
  refine ⟨rfl, rfl, ?_⟩
  intro out h
  cases args with
  | nil => simp [err_code, progname] at h
  | cons a tl => cases a <;> simp [err_code, progname] at h

/-- Claim C3: on a success-payload outcome — `Ok v` for the result
shape, `Some v` for the optional shape with any template — `require`
returns the payload `v` unchanged, writes nothing to the error stream,
and does not terminate the process. -/
theorem require_success (ε α : Type) (display : ε → String)
    (args : List OsString) (v : α) (msg : String) :
    require_result display args (Except.ok v) = .ret v "" ∧
    require_option args (some v) msg = .ret v "" :=
  ⟨rfl, rfl⟩

/-- Claim C4: on `Err e`, `require` writes
`name ++ ": " ++ display e ++ "\n"` — `display e` being the error's
default text representation, the rendering of `"{e}"` — and terminates
the process with exit status 1, never returning to the caller. -/
theorem require_err_exits (ε α : Type) (display : ε → String) (e : ε)
    (s : String) (rest : List OsString) :
    (require_result display [] (Except.error e) : RequireResult α)
      = .exited 1 ("Error" ++ ": " ++ display e ++ "\n") ∧
    (require_result display (OsString.valid s :: rest) (Except.error e)
        : RequireResult α)
      = .exited 1 (s ++ ": " ++ display e ++ "\n") :=
  ⟨rfl, rfl⟩

/-- Claim C5: on `None` with a caller-supplied template rendering to
`msg`, `require` writes `name ++ ": " ++ msg ++ "\n"` and terminates
the process with exit status 1, never returning to the caller. -/
theorem require_none_exits (α : Type) (msg s : String) (rest : List OsString) :
    require_option [] (none : Option α) msg
      = .exited 1 ("Error" ++ ": " ++ msg ++ "\n") ∧
    require_option (OsString.valid s :: rest) (none : Option α) msg
      = .exited 1 (s ++ ": " ++ msg ++ "\n") :=
  ⟨rfl, rfl⟩

/-- Claim C6: `err` is observationally equivalent to `err_code` with
exit code 1: identical error-stream output and identical termination
status on every argument list and message. -/
theorem err_equiv_err_code_one (args : List OsString) (msg : String) :
    err args msg = err_code 1 args msg :=
  rfl

/-- Claim C7 counterexample: when the argument list is non-empty but
its first entry fails to decode, name resolution does not return the
fallback `"Error"` — it panics (the `unwrap_or` covers only the empty
argument list), contradicting the claim that decoding failure also
yields `"Error"` and that name resolution never fails. -/
theorem progname_invalid_not_fallback :
    progname [OsString.invalid] ≠ Except.ok "Error" := by
  simp [progname]

/-- Claim C7 (amended): the Name Resolver returns the first entry of
the argument list decoded as text when one is present and decodable,
returns the literal `"Error"` only when the argument list is empty, and
panics — rather than falling back — when decoding of the first entry
fails. -/
theorem progname_spec (s : String) (rest : List OsString) :
    progname [] = Except.ok "Error" ∧
    progname (OsString.valid s :: rest) = Except.ok s ∧
    progname (OsString.invalid :: rest) = Except.error () :=
  ⟨rfl, rfl, rfl⟩

/-- Claim C8: a present-but-empty first argument is used as the program
name verbatim, so the emitted line begins with the two-character
separator `": "`; the `"Error"` fallback is reserved for the case where
no first entry exists at all. -/
theorem empty_name_not_fallback (code : Int) (msg : String) (rest : List OsString) :
    warn (OsString.valid "" :: rest) msg = .ret ("" ++ ": " ++ msg ++ "\n") ∧
    err_code code (OsString.valid "" :: rest) msg
      = .exited code ("" ++ ": " ++ msg ++ "\n") ∧
    ("" ++ ": " ++ msg ++ "\n") = (": " ++ msg ++ "\n") := by
  refine ⟨rfl, rfl, ?_⟩
  simp

/-- Claim C9: the emitters are deterministic — their observable outcome
is a pure function of the process argument list, the rendered message
and (for `err_code`) the exit code, so two invocations agreeing on
those inputs produce character-for-character identical error-stream
output and identical termination status. -/
theorem emitters_deterministic (args₁ args₂ : List OsString)
    (msg₁ msg₂ : String) (code₁ code₂ : Int)
    (ha : args₁ = args₂) (hm : msg₁ = msg₂) (hc : code₁ = code₂) :
    warn args₁ msg₁ = warn args₂ msg₂ ∧
    err_code code₁ args₁ msg₁ = err_code code₂ args₂ msg₂ := by
  subst ha; subst hm; subst hc
  exact ⟨rfl, rfl⟩

/-- Witness for C9 at concrete inputs. -/
theorem emitters_deterministic_witness :
    warn [OsString.valid "tool"] "boom" = warn [OsString.valid "tool"] "boom" ∧
    err_code 2 [OsString.valid "tool"] "boom"
      = err_code 2 [OsString.valid "tool"] "boom" :=
  emitters_deterministic [OsString.valid "tool"] [OsString.valid "tool"]
    "boom" "boom" 2 2 rfl rfl rfl

/-- Claim C10: on the success path of the optional shape the
caller-supplied template has no influence: for any payload `v` and any
two rendered templates, both invocations return `v` with empty
error-stream output, and their outcomes coincide. -/
theorem require_option_success_noninterference (α : Type)
    (args : List OsString) (v : α) (msg₁ msg₂ : String) :
    require_option args (some v) msg₁ = .ret v "" ∧
    require_option args (some v) msg₂ = require_option args (some v) msg₁ :=
  ⟨rfl, rfl⟩

end Cerm
